import Mathlib

/-!
Verification of the OKX signed-REST client (src/exchanges/okx.rs).

The pipeline is embedded shallowly: the credential context, signature
generation, canonical-string construction, header assembly, request
building and response classification are translated from the source.
The external crates the source calls (sha2, hmac, base64, url's
form_urlencoded, serde_json) are not part of the repository, so they are
modelled from the specification's description of them (HMAC-SHA256 per
FIPS 180-4 / RFC 2104, standard-alphabet padded base64, form encoding,
JSON); the clock (Utc::now) is modelled by passing the timestamp as an
explicit argument, and the transport response by passing the status code
and body text as explicit arguments.
-/

namespace Okx

/- ## 32-bit word arithmetic (Nat with explicit reduction mod 2^32) -/

def w32 (x : Nat) : Nat := x % 4294967296

def wadd (a b : Nat) : Nat := (a + b) % 4294967296

def rotr32 (b x : Nat) : Nat := ((x >>> b) ||| (x <<< (32 - b))) % 4294967296

def wnot (x : Nat) : Nat := x ^^^ 4294967295

/- ## SHA-256 (FIPS 180-4)

Modelled from the spec: the `sha2` crate used by `generate_signature` is an
external dependency; this is the SHA-256 algorithm it implements. -/

def shaCh (x y z : Nat) : Nat := (x &&& y) ^^^ (wnot x &&& z)

def shaMaj (x y z : Nat) : Nat := (x &&& y) ^^^ (x &&& z) ^^^ (y &&& z)

def bigSigma0 (x : Nat) : Nat := rotr32 2 x ^^^ rotr32 13 x ^^^ rotr32 22 x

def bigSigma1 (x : Nat) : Nat := rotr32 6 x ^^^ rotr32 11 x ^^^ rotr32 25 x

def smallSigma0 (x : Nat) : Nat := rotr32 7 x ^^^ rotr32 18 x ^^^ (x >>> 3)

def smallSigma1 (x : Nat) : Nat := rotr32 17 x ^^^ rotr32 19 x ^^^ (x >>> 10)

def shaK : List Nat :=
  [1116352408, 1899447441, 3049323471, 3921009573, 961987163,
   1508970993, 2453635748, 2870763221, 3624381080, 310598401,
   607225278, 1426881987, 1925078388, 2162078206, 2614888103,
   3248222580, 3835390401, 4022224774, 264347078, 604807628,
   770255983, 1249150122, 1555081692, 1996064986, 2554220882,
   2821834349, 2952996808, 3210313671, 3336571891, 3584528711,
   113926993, 338241895, 666307205, 773529912, 1294757372,
   1396182291, 1695183700, 1986661051, 2177026350, 2456956037,
   2730485921, 2820302411, 3259730800, 3345764771, 3516065817,
   3600352804, 4094571909, 275423344, 430227734, 506948616,
   659060556, 883997877, 958139571, 1322822218, 1537002063,
   1747873779, 1955562222, 2024104815, 2227730452, 2361852424,
   2428436474, 2756734187, 3204031479, 3329325298]

structure ShaState where
  a : Nat
  b : Nat
  c : Nat
  d : Nat
  e : Nat
  f : Nat
  g : Nat
  h : Nat
deriving DecidableEq, Repr

def shaInit : ShaState :=
  ⟨1779033703, 3144134277, 1013904242, 2773480762,
   1359893119, 2600822924, 528734635, 1541459225⟩

/-- Big-endian 4-byte split of a 32-bit word. -/
def wordBytes (x : Nat) : List Nat :=
  [(x >>> 24) % 256, (x >>> 16) % 256, (x >>> 8) % 256, x % 256]

def stateBytes (s : ShaState) : List Nat :=
  wordBytes s.a ++ wordBytes s.b ++ wordBytes s.c ++ wordBytes s.d ++
  wordBytes s.e ++ wordBytes s.f ++ wordBytes s.g ++ wordBytes s.h

/-- Big-endian packing of bytes into 32-bit words, four at a time. -/
def bytesToWords : List Nat → List Nat
  | b0 :: b1 :: b2 :: b3 :: rest =>
      (b0 * 16777216 + b1 * 65536 + b2 * 256 + b3) :: bytesToWords rest
  | _ => []

/-- Extend the 16 block words to the 64-entry message schedule. -/
def shaSchedule (ws : Array Nat) : Array Nat :=
  (List.range 48).foldl (fun arr i =>
    let t := i + 16
    arr.push (wadd (wadd (arr.getD (t - 16) 0) (smallSigma0 (arr.getD (t - 15) 0)))
                   (wadd (arr.getD (t - 7) 0) (smallSigma1 (arr.getD (t - 2) 0))))) ws

def shaRound (s : ShaState) (wk : Nat × Nat) : ShaState :=
  let t1 := wadd (wadd (wadd s.h (bigSigma1 s.e)) (wadd (shaCh s.e s.f s.g) wk.2)) wk.1
  let t2 := wadd (bigSigma0 s.a) (shaMaj s.a s.b s.c)
  ⟨wadd t1 t2, s.a, s.b, s.c, wadd s.d t1, s.e, s.f, s.g⟩

def compressBlock (st : ShaState) (block : List Nat) : ShaState :=
  let ws := (shaSchedule (Array.mk (bytesToWords block))).toList
  let r := (List.zip ws shaK).foldl shaRound st
  ⟨wadd st.a r.a, wadd st.b r.b, wadd st.c r.c, wadd st.d r.d,
   wadd st.e r.e, wadd st.f r.f, wadd st.g r.g, wadd st.h r.h⟩

/-- 8-byte big-endian split of the 64-bit message length field. -/
def lenBytes (n : Nat) : List Nat :=
  [(n >>> 56) % 256, (n >>> 48) % 256, (n >>> 40) % 256, (n >>> 32) % 256,
   (n >>> 24) % 256, (n >>> 16) % 256, (n >>> 8) % 256, n % 256]

/-- SHA-256 padding: a 0x80 byte, zeros to 56 mod 64, then the bit length. -/
def shaPad (msg : List Nat) : List Nat :=
  let len := msg.length
  msg ++ [128] ++ List.replicate ((119 - len % 64) % 64) 0 ++ lenBytes (len * 8)

def chunks64 (l : List Nat) : List (List Nat) :=
  if _h : l.length = 0 then []
  else l.take 64 :: chunks64 (l.drop 64)
termination_by l.length
decreasing_by
  simp only [List.length_drop]
  omega

def sha256 (msg : List Nat) : List Nat :=
  stateBytes ((chunks64 (shaPad msg)).foldl compressBlock shaInit)

/- ## HMAC (RFC 2104, block size 64)

Modelled from the spec: the `hmac` crate is an external dependency; this is
the HMAC construction it implements, instantiated with SHA-256. -/

def hmacSha256 (key msg : List Nat) : List Nat :=
  let k0 := if key.length > 64 then sha256 key else key
  let kp := k0 ++ List.replicate (64 - k0.length) 0
  sha256 ((kp.map (fun b => b ^^^ 92)) ++ sha256 ((kp.map (fun b => b ^^^ 54)) ++ msg))

/- ## UTF-8 encoding of strings (Rust's `str::as_bytes`) -/

def utf8Char (c : Char) : List Nat :=
  let n := c.toNat
  if n < 128 then [n]
  else if n < 2048 then [192 + n / 64, 128 + n % 64]
  else if n < 65536 then [224 + n / 4096, 128 + (n / 64) % 64, 128 + n % 64]
  else [240 + n / 262144, 128 + (n / 4096) % 64, 128 + (n / 64) % 64, 128 + n % 64]

def utf8Bytes (s : String) : List Nat :=
  s.data.flatMap utf8Char

/- ## Base64, standard alphabet with padding

Modelled from the spec: the `base64` crate's `STANDARD` engine is an
external dependency; this is the standard padded encoding it implements. -/

def b64Char (n : Nat) : Char :=
  "ABCDEFGHIJKLMNOPQRSTUVWXYZabcdefghijklmnopqrstuvwxyz0123456789+/".data.getD n 'A'

def base64Encode : List Nat → String
  | [] => ""
  | [b0] =>
      String.mk [b64Char (b0 >>> 2), b64Char ((b0 % 4) * 16), '=', '=']
  | [b0, b1] =>
      String.mk [b64Char (b0 >>> 2), b64Char ((b0 % 4) * 16 + (b1 >>> 4)),
                 b64Char ((b1 % 16) * 4), '=']
  | b0 :: b1 :: b2 :: rest =>
      String.mk [b64Char (b0 >>> 2), b64Char ((b0 % 4) * 16 + (b1 >>> 4)),
                 b64Char ((b1 % 16) * 4 + (b2 >>> 6)), b64Char (b2 % 64)]
        ++ base64Encode rest

/- ## application/x-www-form-urlencoded serialization

Modelled from the spec: the `url` crate's `form_urlencoded::Serializer` is an
external dependency; keys and values are percent-encoded per standard form
encoding (space becomes `+`, bytes outside `[A-Za-z0-9*\-._]` become `%XX`),
pairs are written `k=v` and joined with `&` in insertion order. -/

def hexUpper (n : Nat) : Char :=
  "0123456789ABCDEF".data.getD n '0'

def hexLower (n : Nat) : Char :=
  "0123456789abcdef".data.getD n '0'

def formSafe (b : Nat) : Bool :=
  (48 ≤ b && b ≤ 57) || (65 ≤ b && b ≤ 90) || (97 ≤ b && b ≤ 122) ||
  b = 42 || b = 45 || b = 46 || b = 95

def formByte (b : Nat) : List Char :=
  if b = 32 then ['+']
  else if formSafe b then [Char.ofNat b]
  else ['%', hexUpper (b / 16), hexUpper (b % 16)]

def formEncodeStr (s : String) : String :=
  String.mk ((utf8Bytes s).flatMap formByte)

def formUrlEncode (ps : List (String × String)) : String :=
  String.intercalate "&" (ps.map (fun p => formEncodeStr p.1 ++ "=" ++ formEncodeStr p.2))

/- ## JSON values and serde_json-style serialization

Modelled from the spec: `serde_json` is an external dependency. A JSON value
is null, a boolean, a number (kept as its lexeme), a string, an array, or an
object given as its fields in order. -/

inductive Json where
  | null : Json
  | bool (b : Bool) : Json
  | num (lexeme : String) : Json
  | str (s : String) : Json
  | arr (elems : List Json) : Json
  | obj (fields : List (String × Json)) : Json

def quoteChar : Char := Char.ofNat 34

def bslashChar : Char := Char.ofNat 92

def lbraceChar : Char := Char.ofNat 123

def rbraceChar : Char := Char.ofNat 125

/-- serde_json's string escaping: quote and backslash are escaped, control
characters become `\b \t \n \f \r` or `\u00XX`; everything else is literal. -/
def jsonEscapeChar (c : Char) : List Char :=
  if c = quoteChar then [bslashChar, quoteChar]
  else if c = bslashChar then [bslashChar, bslashChar]
  else if c = Char.ofNat 8 then [bslashChar, 'b']
  else if c = Char.ofNat 9 then [bslashChar, 't']
  else if c = Char.ofNat 10 then [bslashChar, 'n']
  else if c = Char.ofNat 12 then [bslashChar, 'f']
  else if c = Char.ofNat 13 then [bslashChar, 'r']
  else if c.toNat < 32 then
    [bslashChar, 'u', '0', '0', hexLower (c.toNat / 16), hexLower (c.toNat % 16)]
  else [c]

def jsonStringLit (s : String) : String :=
  String.mk (quoteChar :: s.data.flatMap jsonEscapeChar ++ [quoteChar])

/-- `serde_json::to_string` of a flat string-to-string map: an object literal
with the entries in iteration order. -/
def jsonToStringFlat (m : List (String × String)) : String :=
  String.mk [lbraceChar] ++
    String.intercalate "," (m.map (fun p => jsonStringLit p.1 ++ ":" ++ jsonStringLit p.2)) ++
    String.mk [rbraceChar]

/- ## JSON parsing (`serde_json::from_str`'s grammar)

Modelled from the spec: `serde_json`'s parser is an external dependency; this
follows the JSON grammar it implements (RFC 8259): optional whitespace between
tokens, strings with escapes, numbers, literals, arrays and objects, and the
whole input must be consumed apart from trailing whitespace. -/

def isJsonWs (c : Char) : Bool :=
  c = ' ' || c = Char.ofNat 9 || c = Char.ofNat 10 || c = Char.ofNat 13

def skipWs : List Char → List Char
  | c :: rest => if isJsonWs c then skipWs rest else c :: rest
  | [] => []

def hexVal (c : Char) : Option Nat :=
  let n := c.toNat
  if 48 ≤ n && n ≤ 57 then some (n - 48)
  else if 97 ≤ n && n ≤ 102 then some (n - 87)
  else if 65 ≤ n && n ≤ 70 then some (n - 55)
  else none

def hex4 (h1 h2 h3 h4 : Char) : Option Nat :=
  match hexVal h1, hexVal h2, hexVal h3, hexVal h4 with
  | some a, some b, some c, some d => some (a * 4096 + b * 256 + c * 16 + d)
  | _, _, _, _ => none

/-- Parse the body of a JSON string after its opening quote, returning the
decoded string and the remaining input after the closing quote. -/
def parseStrBody (acc : List Char) : List Char → Option (String × List Char)
  | [] => none
  | c :: rest =>
    if c = quoteChar then some (String.mk acc.reverse, rest)
    else if c = bslashChar then
      match rest with
      | [] => none
      | e :: rest2 =>
        if e = quoteChar then parseStrBody (quoteChar :: acc) rest2
        else if e = bslashChar then parseStrBody (bslashChar :: acc) rest2
        else if e = '/' then parseStrBody ('/' :: acc) rest2
        else if e = 'b' then parseStrBody (Char.ofNat 8 :: acc) rest2
        else if e = 'f' then parseStrBody (Char.ofNat 12 :: acc) rest2
        else if e = 'n' then parseStrBody (Char.ofNat 10 :: acc) rest2
        else if e = 'r' then parseStrBody (Char.ofNat 13 :: acc) rest2
        else if e = 't' then parseStrBody (Char.ofNat 9 :: acc) rest2
        else if e = 'u' then
          match rest2 with
          | h1 :: h2 :: h3 :: h4 :: rest3 =>
            match hex4 h1 h2 h3 h4 with
            | none => none
            | some n =>
              if 55296 ≤ n && n ≤ 56319 then
                match rest3 with
                | b :: u :: g1 :: g2 :: g3 :: g4 :: rest4 =>
                  if b = bslashChar && u = 'u' then
                    match hex4 g1 g2 g3 g4 with
                    | none => none
                    | some m =>
                      if 56320 ≤ m && m ≤ 57343 then
                        parseStrBody
                          (Char.ofNat (65536 + (n - 55296) * 1024 + (m - 56320)) :: acc) rest4
                      else none
                  else none
                | _ => none
              else if 56320 ≤ n && n ≤ 57343 then none
              else parseStrBody (Char.ofNat n :: acc) rest3
          | _ => none
        else none
    else parseStrBody (c :: acc) rest

def takeDigits : List Char → List Char × List Char
  | c :: rest =>
    if 48 ≤ c.toNat && c.toNat ≤ 57 then
      let p := takeDigits rest
      (c :: p.1, p.2)
    else ([], c :: rest)
  | [] => ([], [])

/-- The integer part of a JSON number: `0`, or a nonzero digit then digits. -/
def parseIntPart : List Char → Option (List Char × List Char)
  | c :: rest =>
    if c = '0' then some ([c], rest)
    else if 49 ≤ c.toNat && c.toNat ≤ 57 then
      let p := takeDigits rest
      some (c :: p.1, p.2)
    else none
  | [] => none

/-- The optional exponent of a JSON number, appended to the lexeme so far. -/
def parseExpPart (pre : List Char) : List Char → Option (String × List Char)
  | c :: rest =>
    if c = 'e' || c = 'E' then
      match rest with
      | s :: r2 =>
        if s = '+' || s = '-' then
          match takeDigits r2 with
          | ([], _) => none
          | (ds, cs3) => some (String.mk (pre ++ c :: s :: ds), cs3)
        else
          match takeDigits rest with
          | ([], _) => none
          | (ds, cs3) => some (String.mk (pre ++ c :: ds), cs3)
      | [] => none
    else some (String.mk pre, c :: rest)
  | [] => some (String.mk pre, [])

/-- A JSON number: `-`? int-part (`.` digits)? exponent?; yields the lexeme. -/
def parseNumber (cs : List Char) : Option (String × List Char) :=
  let sgn : List Char × List Char :=
    match cs with
    | c :: rest => if c = '-' then ([c], rest) else ([], cs)
    | [] => ([], [])
  match parseIntPart sgn.2 with
  | none => none
  | some (ip, cs2) =>
    match cs2 with
    | c :: rest =>
      if c = '.' then
        match takeDigits rest with
        | ([], _) => none
        | (ds, cs3) => parseExpPart (sgn.1 ++ ip ++ c :: ds) cs3
      else parseExpPart (sgn.1 ++ ip) cs2
    | [] => some (String.mk (sgn.1 ++ ip), [])

def stripLit : List Char → List Char → Option (List Char)
  | [], cs => some cs
  | l :: ls, c :: cs => if c = l then stripLit ls cs else none
  | _ :: _, [] => none

mutual

def parseValue : Nat → List Char → Option (Json × List Char)
  | 0, _ => none
  | fuel + 1, cs =>
    match skipWs cs with
    | [] => none
    | c :: rest =>
      if c = quoteChar then
        match parseStrBody [] rest with
        | some (s, rest2) => some (.str s, rest2)
        | none => none
      else if c = lbraceChar then parseObjRest fuel (skipWs rest) []
      else if c = '[' then parseArrRest fuel (skipWs rest) []
      else if c = 't' then (stripLit ['r', 'u', 'e'] rest).map (fun r => (.bool true, r))
      else if c = 'f' then (stripLit ['a', 'l', 's', 'e'] rest).map (fun r => (.bool false, r))
      else if c = 'n' then (stripLit ['u', 'l', 'l'] rest).map (fun r => (.null, r))
      else
        match parseNumber (c :: rest) with
        | some (lex, r) => some (.num lex, r)
        | none => none

def parseArrRest : Nat → List Char → List Json → Option (Json × List Char)
  | 0, _, _ => none
  | fuel + 1, cs, acc =>
    match cs with
    | ']' :: rest =>
      if acc.isEmpty then some (.arr [], rest)
      else none
    | other =>
      match parseValue fuel other with
      | none => none
      | some (v, rest2) =>
        match skipWs rest2 with
        | ',' :: rest3 => parseArrRest fuel (skipWs rest3) (v :: acc)
        | ']' :: rest3 => some (.arr (v :: acc).reverse, rest3)
        | _ => none

def parseObjRest : Nat → List Char → List (String × Json) → Option (Json × List Char)
  | 0, _, _ => none
  | fuel + 1, cs, acc =>
    match cs with
    | [] => none
    | c :: rest =>
      if c = rbraceChar then
        if acc.isEmpty then some (.obj [], rest) else none
      else if c = quoteChar then
        match parseStrBody [] rest with
        | none => none
        | some (k, rest2) =>
          match skipWs rest2 with
          | ':' :: rest3 =>
            match parseValue fuel rest3 with
            | none => none
            | some (v, rest4) =>
              match skipWs rest4 with
              | ',' :: rest5 => parseObjRest fuel (skipWs rest5) ((k, v) :: acc)
              | r :: rest5 =>
                if r = rbraceChar then some (.obj ((k, v) :: acc).reverse, rest5) else none
              | [] => none
          | _ => none
      else none

end

/-- Parse a complete JSON document: one value, with only whitespace around it. -/
def parseJsonText (s : String) : Option Json :=
  match parseValue (2 * s.data.length + 8) s.data with
  | some (j, rest) => if (skipWs rest).isEmpty then some j else none
  | none => none

/- ## Deserializing JSON values into the Rust target types -/

/-- `HashMap::insert`: replace the value at an existing key, else append. -/
def insertAssoc (m : List (String × String)) (k v : String) : List (String × String) :=
  match m with
  | [] => [(k, v)]
  | p :: rest => if p.1 = k then (k, v) :: rest else p :: insertAssoc rest k v

/-- Deserialize object fields into a `HashMap<String, String>`: every value
must be a JSON string; entries are inserted in order (duplicates: last wins). -/
def flatFields : List (String × Json) → List (String × String) → Option (List (String × String))
  | [], acc => some acc
  | p :: rest, acc =>
    match p.2 with
    | .str s => flatFields rest (insertAssoc acc p.1 s)
    | _ => none

/-- serde's `HashMap<String, String>` deserialization from a JSON value: the
value must be an object whose values are all strings. -/
def jsonAsStringMap : Json → Option (List (String × String))
  | .obj fields => flatFields fields []
  | _ => none

/-- `serde_json::from_str::<HashMap<String, String>>`: parse the text, then
require a flat string-to-string object. -/
def fromStrFlatMap (s : String) : Option (List (String × String)) :=
  match parseJsonText s with
  | some j => jsonAsStringMap j
  | none => none

/-- `serde_json::to_value` of a `HashMap<String, String>`. -/
def toValueFlat (m : List (String × String)) : Json :=
  .obj (m.map (fun p => (p.1, .str p.2)))

/-- `serde_json::Value::get`: field lookup on an object, `None` otherwise. -/
def jsonGet (v : Json) (k : String) : Option Json :=
  match v with
  | .obj fields => fields.lookup k
  | _ => none

/-- `serde_json::Value::is_array`. -/
def isArr : Json → Bool
  | .arr _ => true
  | _ => false

/-- Sequence an option-producing map over a list, failing on the first
failing element, as serde deserializes the elements of a JSON array. -/
def optionMapM (f : Json → Option (List (String × String))) :
    List Json → Option (List (List (String × String)))
  | [] => some []
  | a :: l =>
    match f a with
    | some b => (optionMapM f l).map (fun r => b :: r)
    | none => none

/-- `serde_json::from_value::<Vec<HashMap<String, String>>>`. -/
def fromValueBalances : Json → Option (List (List (String × String)))
  | .arr l => optionMapM jsonAsStringMap l
  | _ => none

/- ## The OKX client (src/exchanges/okx.rs) -/

structure OkxExchange where
  key : String
  secret : String
  passphrase : String
  base_url : String
  is_demo : Bool
deriving DecidableEq, Repr

/-- Rust's `str::parse::<bool>`: exactly the strings "true" and "false". -/
def parseBoolRust (s : String) : Option Bool :=
  if s = "true" then some true
  else if s = "false" then some false
  else none

/-- `OkxExchange::new`: reads `key`, `secret`, `passphrase` out of the
configuration map with `.unwrap()` (a missing entry panics, modelled as
`none`); `is_demo` defaults to `false` when absent or unparsable. -/
def OkxExchange.new (configs : List (String × String)) : Option OkxExchange :=
  match configs.lookup "key" with
  | none => none
  | some key =>
    match configs.lookup "secret" with
    | none => none
    | some secret =>
      match configs.lookup "passphrase" with
      | none => none
      | some passphrase =>
        some { key := key, secret := secret, passphrase := passphrase,
               base_url := "https://www.okx.com",
               is_demo := (((configs.lookup "is_demo").bind parseBoolRust).getD false) }

/-- The string `generate_signature` feeds to the MAC:
`format!("{}{}{}{}{}", timestamp, method, url, query_string, body)`. -/
def pre_hash (timestamp method url query_string body : String) : String :=
  timestamp ++ method ++ url ++ query_string ++ body

/-- `generate_signature`, with the timestamp `Utc::now()` produces passed in
explicitly: HMAC-SHA256 of the pre-hash string keyed by the secret's UTF-8
bytes, base64-encoded, returned together with the timestamp. -/
def OkxExchange.generate_signature (ex : OkxExchange)
    (timestamp method url query_string body : String) : String × String :=
  (base64Encode (hmacSha256 (utf8Bytes ex.secret) (utf8Bytes (pre_hash timestamp method url query_string body))),
   timestamp)

/-- `HeaderMap::insert`: replace the value of an existing header name, else
append the pair. -/
def headerInsert (hs : List (String × String)) (name value : String) : List (String × String) :=
  if hs.any (fun p => p.1 = name) then
    hs.map (fun p => if p.1 = name then (name, value) else p)
  else hs ++ [(name, value)]

/-- `get_headers`: the five fixed headers, plus `x-simulated-trading: 1`
exactly when demo mode is on. -/
def OkxExchange.get_headers (ex : OkxExchange) (signature timestamp : String) :
    List (String × String) :=
  let h0 := headerInsert [] "Content-Type" "application/json"
  let h1 := headerInsert h0 "OK-ACCESS-KEY" ex.key
  let h2 := headerInsert h1 "OK-ACCESS-SIGN" signature
  let h3 := headerInsert h2 "OK-ACCESS-TIMESTAMP" timestamp
  let h4 := headerInsert h3 "OK-ACCESS-PASSPHRASE" ex.passphrase
  if ex.is_demo then headerInsert h4 "x-simulated-trading" "1" else h4

/-- The query string `send_request` builds: form-encoded parameters behind a
`?` whenever the parameter map is present, for every method. -/
def queryStringOf (body : Option (List (String × String))) : String :=
  match body with
  | some m => "?" ++ formUrlEncode m
  | none => ""

/-- The body string `send_request` builds: the JSON serialization of the
parameter map for POST, empty otherwise (`to_string` on a string-to-string
map cannot fail, so the `unwrap_or_else` fallback never fires). -/
def bodyStringOf (method : String) (body : Option (List (String × String))) : String :=
  if method = "POST" then
    match body with
    | some m => jsonToStringFlat m
    | none => ""
  else ""

/-- The parts of the request that participate in the canonical string. -/
structure SignedParts where
  timestamp : String
  method : String
  path : String
  query : String
  body : String
deriving DecidableEq, Repr

/-- What `send_request` hands to `rest_client.send_request`: method, full
URL, headers, and the structured parameter map. -/
structure WireRequest where
  method : String
  url : String
  headers : List (String × String)
  transportBody : Option (List (String × String))
deriving DecidableEq, Repr

/-- The request-construction half of `send_request` (everything before the
transport `await`): build query string and body string, sign, assemble
headers, and form the URL `base_url + endpoint + query_string`. -/
def OkxExchange.send_request_build (ex : OkxExchange)
    (timestamp method endpoint : String) (body : Option (List (String × String))) :
    SignedParts × WireRequest :=
  let query_string := queryStringOf body
  let body_string := bodyStringOf method body
  let sig := ex.generate_signature timestamp method endpoint query_string body_string
  let headers := ex.get_headers sig.1 sig.2
  let url := ex.base_url ++ endpoint ++ query_string
  (⟨timestamp, method, endpoint, query_string, body_string⟩,
   ⟨method, url, headers, body⟩)

/-- Modelled from the spec: `RestClient` (src/exchanges/base.rs) is not in
the sources. Per §4.3–§4.4 the transport serializes the structured body as
JSON only for methods that carry a body (here POST), and sends no body bytes
otherwise. -/
def wireBodyBytes (req : WireRequest) : String :=
  if req.method = "POST" then
    match req.transportBody with
    | some m => jsonToStringFlat m
    | none => ""
  else ""

/-- The errors `send_request`/`fetch_balances` can surface (all are
`anyhow::Error` in the source: `message` for the `anyhow!` macros, and
`deserError` for a propagated serde deserialization failure). -/
inductive ApiError where
  | deserError : ApiError
  | message (msg : String) : ApiError
deriving DecidableEq, Repr

/-- `StatusCode::is_success`: 200 ≤ status ≤ 299. -/
def isSuccessStatus (status : Nat) : Bool :=
  200 ≤ status && status ≤ 299

/-- The `anyhow!("{} request failed with status: {} and body: {}", ...)`
message (the status code is rendered in decimal). -/
def apiErrorMessage (method : String) (status : Nat) (text : String) : String :=
  method ++ " request failed with status: " ++ toString status ++ " and body: " ++ text

/-- The response-classification half of `send_request`: on a success status
parse the body text as a flat string-to-string map, otherwise fail with the
formatted message. -/
def send_request_classify (method : String) (status : Nat) (text : String) :
    Except ApiError (List (String × String)) :=
  if isSuccessStatus status then
    match fromStrFlatMap text with
    | some result => .ok result
    | none => .error .deserError
  else .error (.message (apiErrorMessage method status text))

/-- The `data`-field classification in `fetch_balances` (lines 145–154):
missing field, non-array field, and element deserialization. -/
def classifyBalances (response_value : Json) : Except ApiError (List (List (String × String))) :=
  match jsonGet response_value "data" with
  | some data =>
    if isArr data then
      match fromValueBalances data with
      | some balances => .ok balances
      | none => .error .deserError
    else .error (.message ("Data is not an array."))
  | none => .error (.message ("No balance data found in the response."))

/-- `fetch_balances`, as a function of the transport response: a GET to
`/api/v5/account/balance`, whose parsed response map is re-encoded with
`serde_json::to_value` and classified by its `data` field. -/
def fetch_balances_classify (status : Nat) (text : String) :
    Except ApiError (List (List (String × String))) :=
  match send_request_classify "GET" status text with
  | .ok response => classifyBalances (toValueFlat response)
  | .error e => .error e

/- ## Spec-side definitions (for refinement comparison)

These follow the specification's words, to be compared against the
source-derived definitions above. -/

/-- The canonical string exactly as §3 words it: the concatenation
`timestamp + method + requestPath + queryString + bodyString`, order fixed,
no separators. -/
def specCanonicalString (timestamp method requestPath queryString bodyString : String) : String :=
  timestamp ++ method ++ requestPath ++ queryString ++ bodyString

/-- The signature exactly as §4.2 words it: base64 (standard alphabet, with
padding) of the HMAC-SHA256 MAC over the UTF-8 bytes of the canonical
string, keyed by the UTF-8 bytes of the secret. -/
def specSignature (secret timestamp method requestPath queryString bodyString : String) : String :=
  base64Encode (hmacSha256 (utf8Bytes secret)
    (utf8Bytes (specCanonicalString timestamp method requestPath queryString bodyString)))

/- ## Auxiliary definitions used by the statements -/

/-- `sub` occurs contiguously inside `s`. -/
def strContains (s sub : String) : Prop := sub.data <:+: s.data

/-- A concrete client instance (credentials are arbitrary). -/
def sampleExchange : OkxExchange :=
  { key := "k", secret := "s", passphrase := "p",
    base_url := "https://www.okx.com", is_demo := false }

/-- The 2xx response body of the spec's balances example. -/
def sampleBalanceBody : String :=
  "\x7b\"code\":\"0\",\"data\":[\x7b\"ccy\":\"BTC\",\"bal\":\"1.5\"\x7d]\x7d"

/-- Distinct request bodies indexed by a natural number. -/
def bodyOfNat (n : Nat) : String := String.mk (List.replicate n 'a')

/-- A byte list read as a base-256 numeral, most significant byte first. -/
def byteEncode (l : List Nat) : Nat := l.foldl (fun a b => a * 256 + b) 0

end Okx

namespace Okx

/- ## Helper lemmas -/

theorem stateBytes_length (s : ShaState) : (stateBytes s).length = 32 := by
  simp [stateBytes, wordBytes]

theorem sha256_length (m : List Nat) : (sha256 m).length = 32 :=
  stateBytes_length _

theorem hmacSha256_length (k m : List Nat) : (hmacSha256 k m).length = 32 :=
  sha256_length _

theorem wordBytes_lt (x : Nat) : ∀ b ∈ wordBytes x, b < 256 := by
  intro b hb
  simp [wordBytes] at hb
  omega

theorem stateBytes_lt (s : ShaState) : ∀ b ∈ stateBytes s, b < 256 := by
  intro b hb
  simp [stateBytes, wordBytes] at hb
  omega

theorem sha256_lt (m : List Nat) : ∀ b ∈ sha256 m, b < 256 :=
  stateBytes_lt _

theorem hmacSha256_lt (k m : List Nat) : ∀ b ∈ hmacSha256 k m, b < 256 :=
  sha256_lt _

theorem foldlByte_lt : ∀ (l : List Nat), (∀ b ∈ l, b < 256) →
    ∀ acc : Nat, List.foldl (fun a b => a * 256 + b) acc l < (acc + 1) * 256 ^ l.length := by
  intro l
  induction l with
  | nil => intro _ acc; simp
  | cons b t ih =>
    intro hb acc
    have hblt : b < 256 := hb b (List.mem_cons_self _ _)
    have ht : ∀ x ∈ t, x < 256 := fun x hx => hb x (List.mem_cons_of_mem _ hx)
    calc List.foldl (fun a b => a * 256 + b) acc (b :: t)
        = List.foldl (fun a b => a * 256 + b) (acc * 256 + b) t := rfl
      _ < (acc * 256 + b + 1) * 256 ^ t.length := ih ht (acc * 256 + b)
      _ ≤ ((acc + 1) * 256) * 256 ^ t.length := by
          have hstep : acc * 256 + b + 1 ≤ (acc + 1) * 256 := by omega
          exact Nat.mul_le_mul_right _ hstep
      _ = (acc + 1) * 256 ^ (b :: t).length := by
          rw [List.length_cons, pow_succ]; ring

theorem byteEncode_lt (l : List Nat) (h : ∀ b ∈ l, b < 256) (hlen : l.length = 32) :
    byteEncode l < 256 ^ 32 := by
  have hx := foldlByte_lt l h 0
  simpa [byteEncode, hlen] using hx

theorem foldlByte_repr : ∀ (l : List Nat) (acc : Nat),
    List.foldl (fun a b => a * 256 + b) acc l =
      acc * 256 ^ l.length + List.foldl (fun a b => a * 256 + b) 0 l := by
  intro l
  induction l with
  | nil => intro acc; simp
  | cons b t ih =>
    intro acc
    have h1 : List.foldl (fun a b => a * 256 + b) acc (b :: t) =
        List.foldl (fun a b => a * 256 + b) (acc * 256 + b) t := rfl
    have h2 : List.foldl (fun a b => a * 256 + b) 0 (b :: t) =
        List.foldl (fun a b => a * 256 + b) b t := by simp
    rw [h1, h2, ih (acc * 256 + b), ih b, List.length_cons, pow_succ]
    ring

theorem byteEncode_inj : ∀ (l₁ l₂ : List Nat), l₁.length = l₂.length →
    (∀ b ∈ l₁, b < 256) → (∀ b ∈ l₂, b < 256) →
    byteEncode l₁ = byteEncode l₂ → l₁ = l₂ := by
  intro l₁
  induction l₁ with
  | nil =>
    intro l₂ hlen _ _ _
    exact (List.eq_nil_of_length_eq_zero hlen.symm).symm
  | cons b₁ t₁ ih =>
    intro l₂ hlen h1 h2 henc
    cases l₂ with
    | nil => simp at hlen
    | cons b₂ t₂ =>
      have hlt : t₁.length = t₂.length := by
        simp only [List.length_cons] at hlen
        omega
      have ht₁ : ∀ x ∈ t₁, x < 256 := fun x hx => h1 x (List.mem_cons_of_mem _ hx)
      have ht₂ : ∀ x ∈ t₂, x < 256 := fun x hx => h2 x (List.mem_cons_of_mem _ hx)
      have e₁ : byteEncode (b₁ :: t₁) = b₁ * 256 ^ t₁.length + byteEncode t₁ := by
        have h0 : byteEncode (b₁ :: t₁) = List.foldl (fun a b => a * 256 + b) b₁ t₁ := by
          simp [byteEncode]
        rw [h0, foldlByte_repr t₁ b₁]
        rfl
      have e₂ : byteEncode (b₂ :: t₂) = b₂ * 256 ^ t₂.length + byteEncode t₂ := by
        have h0 : byteEncode (b₂ :: t₂) = List.foldl (fun a b => a * 256 + b) b₂ t₂ := by
          simp [byteEncode]
        rw [h0, foldlByte_repr t₂ b₂]
        rfl
      have hbound₁ : byteEncode t₁ < 256 ^ t₁.length := by
        simpa [byteEncode] using foldlByte_lt t₁ ht₁ 0
      have hbound₂ : byteEncode t₂ < 256 ^ t₁.length := by
        rw [hlt]
        simpa [byteEncode] using foldlByte_lt t₂ ht₂ 0
      have hK : 0 < 256 ^ t₁.length := pow_pos (by norm_num) _
      have henc' : b₁ * 256 ^ t₁.length + byteEncode t₁ =
          b₂ * 256 ^ t₁.length + byteEncode t₂ := by
        rw [← e₁, henc, e₂, hlt]
      have hb : b₁ = b₂ := by
        have d1 : (b₁ * 256 ^ t₁.length + byteEncode t₁) / 256 ^ t₁.length = b₁ := by
          rw [mul_comm, Nat.mul_add_div hK, Nat.div_eq_of_lt hbound₁, add_zero]
        have d2 : (b₂ * 256 ^ t₁.length + byteEncode t₂) / 256 ^ t₁.length = b₂ := by
          rw [mul_comm, Nat.mul_add_div hK, Nat.div_eq_of_lt hbound₂, add_zero]
        rw [← d1, ← d2, henc']
      subst hb
      have htEq : byteEncode t₁ = byteEncode t₂ := Nat.add_left_cancel henc'
      rw [ih t₂ hlt ht₁ ht₂ htEq]

theorem str_cancel_left {a b c : String} (h : a ++ b = a ++ c) : b = c := by
  apply String.ext
  have hd : a.data ++ b.data = a.data ++ c.data := by
    rw [← String.data_append, ← String.data_append, h]
  exact List.append_cancel_left hd

theorem str_cancel_right {a b c : String} (h : a ++ c = b ++ c) : a = b := by
  apply String.ext
  have hd : a.data ++ c.data = b.data ++ c.data := by
    rw [← String.data_append, ← String.data_append, h]
  exact List.append_cancel_right hd

theorem strContains_appended (pre mid post : String) : strContains (pre ++ mid ++ post) mid := by
  show mid.data <:+: ((pre ++ mid) ++ post).data
  rw [String.data_append, String.data_append]
  exact List.infix_append _ _ _

theorem optionMapM_eq_none (f : Json → Option (List (String × String))) :
    ∀ (l : List Json) (e : Json), e ∈ l → f e = none → optionMapM f l = none := by
  intro l
  induction l with
  | nil => intro e he; cases he
  | cons a t ih =>
    intro e he hfe
    rcases List.mem_cons.mp he with rfl | hmem
    · simp [optionMapM, hfe]
    · cases hfa : f a
      · simp [optionMapM, hfa]
      · simp [optionMapM, hfa, ih e hmem hfe]

theorem flatFields_none : ∀ (fields : List (String × Json)) (p : String × Json),
    p ∈ fields → (∀ s, p.2 ≠ Json.str s) → ∀ acc, flatFields fields acc = none := by
  intro fields
  induction fields with
  | nil => intro p hp; cases hp
  | cons a t ih =>
    intro p hp hns acc
    rcases List.mem_cons.mp hp with rfl | hmem
    · cases h2 : p.2 with
      | str s => exact absurd h2 (hns s)
      | null => simp [flatFields, h2]
      | bool b => simp [flatFields, h2]
      | num l => simp [flatFields, h2]
      | arr l => simp [flatFields, h2]
      | obj l => simp [flatFields, h2]
    · cases h2 : a.2 with
      | str s => simp [flatFields, h2, ih p hmem hns]
      | null => simp [flatFields, h2]
      | bool b => simp [flatFields, h2]
      | num l => simp [flatFields, h2]
      | arr l => simp [flatFields, h2]
      | obj l => simp [flatFields, h2]

end Okx

namespace Okx

/- ## Claim theorems -/

/-- C1: the spec's balances example claims that a 2xx response with body
`{"code":"0","data":[{"ccy":"BTC","bal":"1.5"}]}` makes `fetch_balances`
return the one-element list. On the code it does not: `send_request` first
deserializes every 2xx body as a flat `HashMap<String, String>`, the
array-valued `data` field fails that deserialization, and `fetch_balances`
propagates the error — its own array-handling branch is unreachable. -/
theorem C1_sample_body_errors :
    fetch_balances_classify 200 sampleBalanceBody = .error .deserError ∧
    fetch_balances_classify 200 sampleBalanceBody ≠
      .ok [[("ccy", "BTC"), ("bal", "1.5")]] := by
  constructor
  · rfl
  · intro h
    exact Except.noConfusion
      (show Except.error ApiError.deserError =
        Except.ok [[("ccy", "BTC"), ("bal", "1.5")]] from h)

/-- C2: the signature `generate_signature` produces is exactly the
standard-alphabet padded base64 encoding of the HMAC-SHA256 MAC keyed by the
UTF-8 bytes of the secret over the UTF-8 bytes of the canonical string
`timestamp + method + requestPath + queryString + bodyString` (fixed order,
no separators); the returned timestamp is the input timestamp; and the
signature depends on the inputs only through that canonical string, so for a
fixed secret and fixed canonical string it is deterministic. -/
theorem C2_signature_formula (ex : OkxExchange) (ts method path query body : String) :
    (ex.generate_signature ts method path query body).1 =
      specSignature ex.secret ts method path query body ∧
    (ex.generate_signature ts method path query body).2 = ts ∧
    ∀ ts' method' path' query' body',
      specCanonicalString ts method path query body =
        specCanonicalString ts' method' path' query' body' →
      (ex.generate_signature ts method path query body).1 =
        (ex.generate_signature ts' method' path' query' body').1 := by
  refine ⟨rfl, rfl, ?_⟩
  intro ts' method' path' query' body' h
  have hp : pre_hash ts method path query body = pre_hash ts' method' path' query' body' := h
  simp only [OkxExchange.generate_signature, hp]

/-- C2 witness: at a concrete secret and two concrete splits of the same
canonical string, the hypothesis holds by evaluation and the signatures
coincide. -/
theorem C2_signature_formula_witness :
    specCanonicalString "AB" "C" "/p" "" "" = specCanonicalString "A" "BC" "/p" "" "" ∧
    (sampleExchange.generate_signature "AB" "C" "/p" "" "").1 =
      (sampleExchange.generate_signature "A" "BC" "/p" "" "").1 :=
  ⟨by decide,
   (C2_signature_formula sampleExchange "AB" "C" "/p" "" "").2.2 "A" "BC" "/p" "" "" (by decide)⟩

/-- C3 counterexample: for a POST with parameter map `{a: b}` the signed
query string is `?a=b`, not empty — the parameters ARE appended to the
signed query string, contradicting the claim's POST half. -/
theorem C3_counterexample :
    (sampleExchange.send_request_build "T" "POST" "/x" (some [("a", "b")])).1.query = "?a=b" ∧
    (sampleExchange.send_request_build "T" "POST" "/x" (some [("a", "b")])).1.query ≠ "" := by
  constructor
  · rfl
  · decide

/-- C3 amended: with a non-empty parameter mapping, GET places the
parameters in the query string only (the signed body string is empty and the
modelled wire body is empty), while POST encodes the parameters as a JSON
body AND also form-encodes the same parameters into the signed query string. -/
theorem C3_amended_channels (ex : OkxExchange) (ts endpoint : String)
    (ps : List (String × String)) :
    (ex.send_request_build ts "GET" endpoint (some ps)).1.body = "" ∧
    wireBodyBytes (ex.send_request_build ts "GET" endpoint (some ps)).2 = "" ∧
    (ex.send_request_build ts "GET" endpoint (some ps)).1.query = "?" ++ formUrlEncode ps ∧
    (ex.send_request_build ts "GET" endpoint none).1.query = "" ∧
    (ex.send_request_build ts "POST" endpoint (some ps)).1.body = jsonToStringFlat ps ∧
    (ex.send_request_build ts "POST" endpoint (some ps)).1.query = "?" ++ formUrlEncode ps :=
  ⟨rfl, rfl, rfl, rfl, rfl, rfl⟩

/-- C4: every response with a status outside 2xx classifies to the
`anyhow!` error whose message is the method, the status code, and the whole
body text, and that message contains each of the three verbatim. -/
theorem C4_non2xx_error (method : String) (status : Nat) (text : String)
    (h : isSuccessStatus status = false) :
    send_request_classify method status text =
      .error (.message (apiErrorMessage method status text)) ∧
    strContains (apiErrorMessage method status text) method ∧
    strContains (apiErrorMessage method status text) (toString status) ∧
    strContains (apiErrorMessage method status text) text := by
  refine ⟨by simp [send_request_classify, h], ?_, ?_, ?_⟩
  · refine ⟨[], (" request failed with status: " ++ toString status ++ " and body: " ++ text).data, ?_⟩
    simp [apiErrorMessage, String.data_append]
  · refine ⟨(method ++ " request failed with status: ").data, (" and body: " ++ text).data, ?_⟩
    simp [apiErrorMessage, String.data_append]
  · refine ⟨(method ++ " request failed with status: " ++ toString status ++ " and body: ").data, [], ?_⟩
    simp [apiErrorMessage, String.data_append]

/-- C4 witness: a 401 with the spec's example body fails with the formatted
message containing the method, the code, and the body. -/
theorem C4_non2xx_error_witness :
    isSuccessStatus 401 = false ∧
    (send_request_classify "GET" 401 "\x7b\"msg\":\"invalid key\"\x7d" =
      .error (.message (apiErrorMessage "GET" 401 "\x7b\"msg\":\"invalid key\"\x7d")) ∧
     strContains (apiErrorMessage "GET" 401 "\x7b\"msg\":\"invalid key\"\x7d") "GET" ∧
     strContains (apiErrorMessage "GET" 401 "\x7b\"msg\":\"invalid key\"\x7d") (toString 401) ∧
     strContains (apiErrorMessage "GET" 401 "\x7b\"msg\":\"invalid key\"\x7d") "\x7b\"msg\":\"invalid key\"\x7d") :=
  ⟨rfl, C4_non2xx_error "GET" 401 "\x7b\"msg\":\"invalid key\"\x7d" rfl⟩

/-- C5: the `data`-field classification of `fetch_balances`: a missing
`data` field fails with the not-found message, a present non-array `data`
fails with the shape message, and an array `data` with a non-conforming
element fails with the propagated deserialization error. -/
theorem C5_data_classification (v : Json) :
    (jsonGet v "data" = none →
      classifyBalances v = .error (.message ("No balance data found in the response."))) ∧
    (∀ d, jsonGet v "data" = some d → isArr d = false →
      classifyBalances v = .error (.message ("Data is not an array."))) ∧
    (∀ l e, jsonGet v "data" = some (.arr l) → e ∈ l → jsonAsStringMap e = none →
      classifyBalances v = .error .deserError) := by
  refine ⟨?_, ?_, ?_⟩
  · intro h
    simp [classifyBalances, h]
  · intro d hd hda
    simp [classifyBalances, hd, hda]
  · intro l e hl he hnone
    simp [classifyBalances, hl, isArr, fromValueBalances,
      optionMapM_eq_none jsonAsStringMap l e he hnone]

/-- C5 witness: the three branches at concrete parsed responses — no `data`
field, a string-valued `data`, and an array `data` holding a number. -/
theorem C5_data_classification_witness :
    classifyBalances (.obj [("code", .str "0")]) =
      .error (.message ("No balance data found in the response.")) ∧
    classifyBalances (.obj [("data", .str "x")]) =
      .error (.message ("Data is not an array.")) ∧
    classifyBalances (.obj [("data", .arr [.num "1"])]) = .error .deserError :=
  ⟨(C5_data_classification (.obj [("code", .str "0")])).1 rfl,
   (C5_data_classification (.obj [("data", .str "x")])).2.1 (.str "x") rfl rfl,
   (C5_data_classification (.obj [("data", .arr [.num "1"])])).2.2 [.num "1"] (.num "1")
     rfl (by simp) rfl⟩

/-- C6: the header set handed to the transport is exactly Content-Type,
OK-ACCESS-KEY, OK-ACCESS-SIGN, OK-ACCESS-TIMESTAMP, OK-ACCESS-PASSPHRASE
with their values, extended by `x-simulated-trading: 1` exactly when demo
mode is on; in particular that header is present iff sandbox mode is active. -/
theorem C6_header_set (ex : OkxExchange) (ts method endpoint : String)
    (body : Option (List (String × String))) :
    ((ex.send_request_build ts method endpoint body).2.headers =
      [("Content-Type", "application/json"), ("OK-ACCESS-KEY", ex.key),
       ("OK-ACCESS-SIGN",
         (ex.generate_signature ts method endpoint (queryStringOf body)
           (bodyStringOf method body)).1),
       ("OK-ACCESS-TIMESTAMP", ts), ("OK-ACCESS-PASSPHRASE", ex.passphrase)] ++
        (if ex.is_demo then [("x-simulated-trading", "1")] else [])) ∧
    ((ex.send_request_build ts method endpoint body).2.headers.map Prod.fst =
      ["Content-Type", "OK-ACCESS-KEY", "OK-ACCESS-SIGN", "OK-ACCESS-TIMESTAMP",
       "OK-ACCESS-PASSPHRASE"] ++
        (if ex.is_demo then ["x-simulated-trading"] else [])) ∧
    ((("x-simulated-trading", "1") ∈ (ex.send_request_build ts method endpoint body).2.headers)
      ↔ ex.is_demo = true) := by
  cases hd : ex.is_demo <;>
    simp [OkxExchange.send_request_build, OkxExchange.get_headers, headerInsert, hd,
      OkxExchange.generate_signature]

/-- C7: what is signed is byte-identical to what is sent: the wire URL is
the base URL, the signed path, and the signed query string; the wire method
is the signed method; the (spec-modelled) wire body bytes are the signed
body string; and the signed timestamp is the one placed in the headers. -/
theorem C7_signed_matches_wire (ex : OkxExchange) (ts method endpoint : String)
    (body : Option (List (String × String))) :
    (ex.send_request_build ts method endpoint body).2.url =
      ex.base_url ++ (ex.send_request_build ts method endpoint body).1.path ++
        (ex.send_request_build ts method endpoint body).1.query ∧
    (ex.send_request_build ts method endpoint body).2.method =
      (ex.send_request_build ts method endpoint body).1.method ∧
    wireBodyBytes (ex.send_request_build ts method endpoint body).2 =
      (ex.send_request_build ts method endpoint body).1.body ∧
    (ex.send_request_build ts method endpoint body).1.timestamp = ts :=
  ⟨rfl, rfl, rfl, rfl⟩

/-- C8 counterexample: it is not the case that two signing inputs that agree
everywhere except the body always produce different signatures — the MAC has
finitely many values while bodies are unbounded, so two distinct bodies
collide (pigeonhole; no explicit collision is known, but one provably
exists). -/
theorem C8_counterexample : ∃ b₁ b₂ : String, b₁ ≠ b₂ ∧
    (sampleExchange.generate_signature "T" "GET" "/a" "" b₁).1 =
      (sampleExchange.generate_signature "T" "GET" "/a" "" b₂).1 := by
  obtain ⟨n₁, n₂, hne, heq⟩ :=
    Finite.exists_ne_map_eq_of_infinite (fun n : ℕ =>
      (⟨byteEncode (hmacSha256 (utf8Bytes sampleExchange.secret)
          (utf8Bytes (pre_hash "T" "GET" "/a" "" (bodyOfNat n)))),
        byteEncode_lt _ (hmacSha256_lt _ _) (hmacSha256_length _ _)⟩ : Fin (256 ^ 32)))
  refine ⟨bodyOfNat n₁, bodyOfNat n₂, ?_, ?_⟩
  · intro h
    apply hne
    have hlen := congrArg (fun s : String => s.data.length) h
    simpa [bodyOfNat] using hlen
  · have hval := congrArg Fin.val heq
    simp only at hval
    have hmac : hmacSha256 (utf8Bytes sampleExchange.secret)
        (utf8Bytes (pre_hash "T" "GET" "/a" "" (bodyOfNat n₁))) =
        hmacSha256 (utf8Bytes sampleExchange.secret)
          (utf8Bytes (pre_hash "T" "GET" "/a" "" (bodyOfNat n₂))) :=
      byteEncode_inj _ _ (by rw [hmacSha256_length, hmacSha256_length])
        (hmacSha256_lt _ _) (hmacSha256_lt _ _) hval
    exact congrArg base64Encode hmac

/-- C8 amended: changing exactly one of timestamp, method, path, query or
body changes the canonical pre-hash string that is signed (the delimiter-free
concatenation admits no collision when a single field varies); the signatures
themselves then differ except in the event of an HMAC-SHA256 collision. -/
theorem C8_amended (ts ts' m m' u u' q q' b b' : String)
    (hdiff : (ts ≠ ts' ∧ m = m' ∧ u = u' ∧ q = q' ∧ b = b') ∨
             (ts = ts' ∧ m ≠ m' ∧ u = u' ∧ q = q' ∧ b = b') ∨
             (ts = ts' ∧ m = m' ∧ u ≠ u' ∧ q = q' ∧ b = b') ∨
             (ts = ts' ∧ m = m' ∧ u = u' ∧ q ≠ q' ∧ b = b') ∨
             (ts = ts' ∧ m = m' ∧ u = u' ∧ q = q' ∧ b ≠ b')) :
    pre_hash ts m u q b ≠ pre_hash ts' m' u' q' b' := by
  intro h
  simp only [pre_hash] at h
  rcases hdiff with ⟨hne, rfl, rfl, rfl, rfl⟩ | ⟨rfl, hne, rfl, rfl, rfl⟩ |
    ⟨rfl, rfl, hne, rfl, rfl⟩ | ⟨rfl, rfl, rfl, hne, rfl⟩ | ⟨rfl, rfl, rfl, rfl, hne⟩
  · exact hne (str_cancel_right (str_cancel_right (str_cancel_right (str_cancel_right h))))
  · exact hne (str_cancel_left (str_cancel_right (str_cancel_right (str_cancel_right h))))
  · exact hne (str_cancel_left (str_cancel_right (str_cancel_right h)))
  · exact hne (str_cancel_left (str_cancel_right h))
  · exact hne (str_cancel_left h)

/-- C8 amended witness: concretely, changing only the timestamp changes the
canonical string. -/
theorem C8_amended_witness :
    pre_hash "T1" "GET" "/a" "" "" ≠ pre_hash "T2" "GET" "/a" "" "" :=
  C8_amended "T1" "T2" "GET" "GET" "/a" "/a" "" "" "" ""
    (Or.inl ⟨by decide, rfl, rfl, rfl, rfl⟩)

/-- C9: construction fails (the `.unwrap()` panics, modelled as `none`)
exactly when `key`, `secret` or `passphrase` is missing from the
configuration mapping, and succeeds with those three values when all are
present — no network interaction is involved, construction is a pure
function of the configuration. -/
theorem C9_construction (configs : List (String × String)) :
    ((configs.lookup "key" = none ∨ configs.lookup "secret" = none ∨
        configs.lookup "passphrase" = none) →
      OkxExchange.new configs = none) ∧
    (∀ k s p, configs.lookup "key" = some k → configs.lookup "secret" = some s →
      configs.lookup "passphrase" = some p →
      OkxExchange.new configs =
        some { key := k, secret := s, passphrase := p,
               base_url := "https://www.okx.com",
               is_demo := (((configs.lookup "is_demo").bind parseBoolRust).getD false) }) := by
  constructor
  · intro h
    rcases h with h | h | h
    · simp [OkxExchange.new, h]
    · cases hk : configs.lookup "key" <;> simp [OkxExchange.new, hk, h]
    · cases hk : configs.lookup "key" <;> cases hs : configs.lookup "secret" <;>
        simp [OkxExchange.new, hk, hs, h]
  · intro k s p hk hs hp
    simp [OkxExchange.new, hk, hs, hp]

/-- C9 witness: a mapping missing `secret` fails; the full mapping succeeds
with the supplied credentials and demo mode defaulted off. -/
theorem C9_construction_witness :
    ([("key", "k"), ("passphrase", "p")] : List (String × String)).lookup "secret" = none ∧
    OkxExchange.new [("key", "k"), ("passphrase", "p")] = none ∧
    OkxExchange.new [("key", "k"), ("secret", "s"), ("passphrase", "p")] =
      some { key := "k", secret := "s", passphrase := "p",
             base_url := "https://www.okx.com", is_demo := false } :=
  ⟨by decide,
   (C9_construction [("key", "k"), ("passphrase", "p")]).1 (Or.inr (Or.inl (by decide))),
   ((C9_construction [("key", "k"), ("secret", "s"), ("passphrase", "p")]).2
      "k" "s" "p" (by decide) (by decide) (by decide)).trans (by decide)⟩

/-- C10: on a 2xx status, `send_request` succeeds exactly when the body text
deserializes as a flat JSON object of strings; when that deserialization
fails — in particular when the parsed body is an object one of whose values
is not a string, such as an array-valued `data` — `fetch_balances` returns
the propagated deserialization error, before its own `data` inspection. -/
theorem C10_flat_map_gate (method : String) (status : Nat) (text : String)
    (hs : isSuccessStatus status = true) :
    ((∃ m, send_request_classify method status text = .ok m) ↔
      (fromStrFlatMap text).isSome = true) ∧
    (fromStrFlatMap text = none →
      fetch_balances_classify status text = .error .deserError) ∧
    (∀ fields p, parseJsonText text = some (.obj fields) → p ∈ fields →
      (∀ s, p.2 ≠ Json.str s) →
      fetch_balances_classify status text = .error .deserError) := by
  refine ⟨?_, ?_, ?_⟩
  · cases hf : fromStrFlatMap text <;> simp [send_request_classify, hs, hf]
  · intro h
    simp [fetch_balances_classify, send_request_classify, hs, h]
  · intro fields p hp hmem hnstr
    have hnone : fromStrFlatMap text = none := by
      simp [fromStrFlatMap, hp, jsonAsStringMap, flatFields_none fields p hmem hnstr []]
    simp [fetch_balances_classify, send_request_classify, hs, hnone]

/-- C10 witness: a 2xx body whose `data` value is an array is rejected by
the flat-map deserialization and `fetch_balances` propagates that error. -/
theorem C10_flat_map_gate_witness :
    isSuccessStatus 200 = true ∧
    parseJsonText "\x7b\"data\":[]\x7d" = some (.obj [("data", Json.arr [])]) ∧
    fetch_balances_classify 200 "\x7b\"data\":[]\x7d" = .error .deserError :=
  ⟨rfl, rfl,
   (C10_flat_map_gate "GET" 200 "\x7b\"data\":[]\x7d" rfl).2.2
     [("data", Json.arr [])] ("data", Json.arr []) rfl (by simp)
     (fun s h => Json.noConfusion h)⟩

end Okx
